import Mathlib

/-!
# Verification of the go-di dependency-injection container

This file gives a shallow embedding of the go-di repository's core code
(the registration store and resolution engine in `container.go`, the
invocation engine in `invoke.go`, and the field injector in `inject.go`)
and proves or refutes the specification's claims about it.

Modelling conventions:
* Go `any` values held by the container are modelled by `Option V` for a
  type parameter `V` (`none` stands for Go's `nil` interface value).
* Go `error` values are modelled by `Option GoErr` (`none` = `nil`).
* Go code that mutates a `*containerItem` in place is modelled by explicit
  state passing: `ContainerItem.resolve` returns the updated item.  It also
  returns a `Bool` flag recording whether the branch that executes the
  factory (`i.option.resolver(r)`) was taken; the flag is pure
  instrumentation of the control flow and feeds no other computation.
* The `Resolver` argument that Go threads into factories is an abstract
  type parameter `R`; none of the verified claims depends on reentrant
  resolution, so `R` stays opaque.
* Go maps (`groups`, `namedItems`) are modelled as association lists; the
  list order stands for one arbitrary iteration order of the Go map, which
  Go leaves unspecified.
-/

namespace GoDI

/-- Model of `type Lifetime int` with `LifetimeStatic = 0` and `LifetimePerRequest = 1`. -/
inductive Lifetime where
  | static
  | perRequest
deriving DecidableEq, Repr

/-- Go `error` values produced by the modelled code: `ErrNotExist` wrapped
with the type key, `ErrNameNotExist` wrapped with the name, validation
errors created with `fmt.Errorf`, and arbitrary other runtime errors
(e.g. errors returned by user factories). -/
inductive GoErr where
  | notExist (key : String)
  | nameNotExist (name : String)
  | validation (msg : String)
  | runtime (msg : String)
deriving DecidableEq, Repr

/-- Model of `registrationOption`: name, key, resolver delegate and lifetime. -/
structure RegistrationOption (R V : Type) where
  name : String
  key : String
  resolver : R → Option V × Option GoErr
  lifetime : Lifetime

/-- Model of `containerItem`: one factory binding with its memoization fields
`data` and `err` (both `nil` on creation). -/
structure ContainerItem (R V : Type) where
  data : Option V
  err : Option GoErr
  option : RegistrationOption R V

/-- Model of `containerItem.resolve`: return the cached error if present, else the
cached data if present, else execute the resolver; with Static lifetime
the `(data, err)` pair is stored.  The returned `ContainerItem` is the
state of the Go item after the call, and the `Bool` records whether the
factory was executed on this call. -/
def ContainerItem.resolve {R V : Type} (i : ContainerItem R V) (r : R) :
    (Option V × Option GoErr) × ContainerItem R V × Bool :=
  match i.err with
  | some e => ((none, some e), i, false)
  | none =>
    match i.data with
    | some d => ((some d, none), i, false)
    | none =>
      let res := i.option.resolver r
      if i.option.lifetime = Lifetime.static then
        (res, { i with data := res.1, err := res.2 }, true)
      else
        (res, i, true)

/-- Model of `containerItemGroup`: the insertion-ordered unnamed items and the
named-item map (modelled as an association list). -/
structure ContainerItemGroup (R V : Type) where
  items : List (ContainerItem R V)
  namedItems : List (String × ContainerItem R V)

/-- Model of `container`: groups keyed by the type's string key, plus the default
registration options. -/
structure ContainerModel (R V : Type) where
  groups : List (String × ContainerItemGroup R V)
  defaultOptions : List (RegistrationOption R V → RegistrationOption R V)

/-- Association-list lookup, modelling Go map indexing `m[k]`. -/
def lookupKey {α : Type} : List (String × α) → String → Option α
  | [], _ => none
  | (k, v) :: rest, key => if k = key then some v else lookupKey rest key

/-- Association-list update, modelling Go map assignment `m[k] = v`
(overwrites the existing binding, else adds one). -/
def updateKey {α : Type} : List (String × α) → String → α → List (String × α)
  | [], key, v => [(key, v)]
  | (k, w) :: rest, key, v =>
    if k = key then (key, v) :: rest else (k, w) :: updateKey rest key v

/-- Model of `WithName`: option setting the registration name. -/
def withNameOpt {R V : Type} (name : String) :
    RegistrationOption R V → RegistrationOption R V :=
  fun o => { o with name := name }

/-- Model of `WithLifetime` / `withLifetime`: option setting the lifetime. -/
def withLifetimeOpt {R V : Type} (lt : Lifetime) :
    RegistrationOption R V → RegistrationOption R V :=
  fun o => { o with lifetime := lt }

/-- Model of `NewContainer`: empty groups plus the given default options. -/
def newContainer {R V : Type}
    (options : List (RegistrationOption R V → RegistrationOption R V)) :
    ContainerModel R V :=
  { groups := [], defaultOptions := options }

/-- Model of `container.RegisterDynamic`: build the effective options (Go's zero
value of `registrationOption` has `name = ""` and `lifetime = 0`, i.e.
`LifetimeStatic`; the container's default options are applied first, then
the per-call overrides), create the item, and append it to the group's
unnamed list when the name is empty, else insert it into the named map.
The group is created lazily. -/
def ContainerModel.registerDynamic {R V : Type} (c : ContainerModel R V)
    (key : String) (delegate : R → Option V × Option GoErr)
    (options : List (RegistrationOption R V → RegistrationOption R V)) :
    ContainerModel R V :=
  let o0 : RegistrationOption R V :=
    { name := "", key := key, resolver := delegate, lifetime := Lifetime.static }
  let o1 := c.defaultOptions.foldl (fun o f => f o) o0
  let o := options.foldl (fun o f => f o) o1
  let group :=
    match lookupKey c.groups key with
    | some g => g
    | none => { items := [], namedItems := [] }
  let item : ContainerItem R V := { data := none, err := none, option := o }
  let group' :=
    if o.name = "" then { group with items := group.items ++ [item] }
    else { group with namedItems := updateKey group.namedItems o.name item }
  { c with groups := updateKey c.groups key group' }

/-- Model of `container.RegisterInstance`: wrap the instance in a constant
factory and delegate to RegisterDynamic. -/
def ContainerModel.registerInstance {R V : Type} (c : ContainerModel R V)
    (key : String) (inst : V)
    (options : List (RegistrationOption R V → RegistrationOption R V)) :
    ContainerModel R V :=
  c.registerDynamic key (fun _ => (some inst, none)) options

/-- Model of `container.RemoveAll`: delete the whole group for the key. -/
def ContainerModel.removeAll {R V : Type} (c : ContainerModel R V)
    (key : String) : ContainerModel R V :=
  { c with groups := c.groups.filter (fun p => ¬ p.1 = key) }

/-- Model of `container.group`: map lookup; the Go version wraps the miss in
`ErrNotExist`, which the call sites below reproduce. -/
def ContainerModel.group {R V : Type} (c : ContainerModel R V)
    (key : String) : Option (ContainerItemGroup R V) :=
  lookupKey c.groups key

/-- Model of `container.Resolve`: if the group has unnamed items, resolve the last
one; else if it has named items, resolve the first one the map iteration
yields; else fail with `ErrNotExist`.  A missing group also fails with
`ErrNotExist`. -/
def ContainerModel.resolveType {R V : Type} (c : ContainerModel R V)
    (key : String) (r : R) : Option V × Option GoErr :=
  match c.group key with
  | none => (none, some (GoErr.notExist key))
  | some g =>
    match g.items.getLast? with
    | some item => (item.resolve r).1
    | none =>
      match g.namedItems with
      | (_, item) :: _ => (item.resolve r).1
      | [] => (none, some (GoErr.notExist key))

/-- Model of `container.ResolveByName`: group lookup (miss = `ErrNotExist`), then
named lookup (miss = `ErrNameNotExist`), then resolve the item. -/
def ContainerModel.resolveByName {R V : Type} (c : ContainerModel R V)
    (key name : String) (r : R) : Option V × Option GoErr :=
  match c.group key with
  | none => (none, some (GoErr.notExist key))
  | some g =>
    match lookupKey g.namedItems name with
    | none => (none, some (GoErr.nameNotExist name))
    | some item => (item.resolve r).1

/-- The collection loop shared by `container.ResolveAll`: resolve each
item in turn, abort with `(nil, err)` on the first error, else append the
resolved data (which may itself be `nil`) to the accumulator. -/
def resolveItemList {R V : Type} (r : R) (acc : List (Option V)) :
    List (ContainerItem R V) → List (Option V) × Option GoErr
  | [] => (acc, none)
  | item :: rest =>
    match (item.resolve r).1 with
    | (_, some e) => ([], some e)
    | (d, none) => resolveItemList r (acc ++ [d]) rest

/-- Model of `container.ResolveAll`: group lookup (miss = `ErrNotExist`), then
collect the named items' resolutions (in map iteration order), then the
unnamed items' resolutions (in insertion order), aborting on the first
error.  The Go `nil` slice result is modelled as `[]`. -/
def ContainerModel.resolveAll {R V : Type} (c : ContainerModel R V)
    (key : String) (r : R) : List (Option V) × Option GoErr :=
  match c.group key with
  | none => ([], some (GoErr.notExist key))
  | some g =>
    match resolveItemList r [] (g.namedItems.map Prod.snd) with
    | (_, some e) => ([], some e)
    | (all, none) => resolveItemList r all g.items

/-!
## Reflected Go types

`reflect.Type` is modelled by `GoType`.  A named type whose only relevant
features are its name, kind and error capability is a `prim`; composite
types that the engine inspects structurally (functions, slices, arrays,
maps, pointers) have their own constructors.  Channel types and named
composite types are not modelled — no verified claim mentions them.  A
pointer type with an `Error()` method can be represented as a `prim` of
pointer kind whenever its element type is not inspected.
-/

/-- Model of `reflect.Kind`, restricted to the kinds the engine distinguishes. -/
inductive GoKind where
  | kfunc
  | kslice
  | karray
  | kmap
  | kptr
  | kstring
  | kint
  | kbool
  | kstruct
  | kiface
  | kother
deriving DecidableEq, Repr

/-- A reflected Go type. -/
inductive GoType where
  | prim (name : String) (kind : GoKind) (implsError : Bool)
  | fn (ins : List GoType) (outs : List GoType) (variadic : Bool)
  | slice (elem : GoType)
  | array (size : Nat) (elem : GoType)
  | mp (key : GoType) (value : GoType)
  | ptr (elem : GoType)

/-- Model of `reflect.Type.Kind`. -/
def GoType.kind : GoType → GoKind
  | .prim _ k _ => k
  | .fn _ _ _ => .kfunc
  | .slice _ => .kslice
  | .array _ _ => .karray
  | .mp _ _ => .kmap
  | .ptr _ => .kptr

/-- Model of `reflect.Type.Elem`, which is defined only for array, map, pointer
and slice kinds (for maps it is the value type); `none` models the panic
`reflect: Elem of invalid type` on every other kind. -/
def GoType.elem : GoType → Option GoType
  | .slice e => some e
  | .array _ e => some e
  | .mp _ v => some v
  | .ptr e => some e
  | _ => none

/-- Model of `reflect.Type.String`, simplified: just enough rendering to serve as
the registry key; the claims depend on it only through equality of the
rendered keys. -/
def GoType.typeString : GoType → String
  | .prim n _ _ => n
  | .fn _ _ _ => "func"
  | .slice e => "[]" ++ e.typeString
  | .array n e => "[" ++ toString n ++ "]" ++ e.typeString
  | .mp k v => "map[" ++ k.typeString ++ "]" ++ v.typeString
  | .ptr e => "*" ++ e.typeString

/-- Model of `t.Implements(errorInterface)`: named types carry their error
capability as a flag; the structural composite types used by the engine
never implement `error`. -/
def GoType.implementsError : GoType → Bool
  | .prim _ _ b => b
  | _ => false

/-- Model of `reflect.Type.NumIn` / `In i`, gathered as a list. -/
def GoType.ins : GoType → List GoType
  | .fn i _ _ => i
  | _ => []

/-- Model of `reflect.Type.NumOut` / `Out i`, gathered as a list. -/
def GoType.outs : GoType → List GoType
  | .fn _ o _ => o
  | _ => []

/-- Model of `reflect.Type.IsVariadic`. -/
def GoType.isVariadic : GoType → Bool
  | .fn _ _ v => v
  | _ => false

/-- Outcome of a Go validation function: returns `nil`, returns an error,
or panics while executing. -/
inductive ValidateResult where
  | ok
  | failed (e : GoErr)
  | panicked (msg : String)
deriving DecidableEq, Repr

/-- Model of `validateDelegateType`: a func kind passes; any other kind takes the
error path `fmt.Errorf("function '%s' must be a method", t.Elem())` —
but constructing that message calls `reflect.Type.Elem`, which panics
unless the kind is array, map, pointer or slice (or chan, unmodelled). -/
def validateDelegateType (t : GoType) : ValidateResult :=
  if t.kind = GoKind.kfunc then ValidateResult.ok
  else
    match t.elem with
    | some e =>
      ValidateResult.failed
        (GoErr.validation ("function '" ++ e.typeString ++ "' must be a method"))
    | none => ValidateResult.panicked "reflect: Elem of invalid type"

/-- Model of `validateDelegateTypeIsConstructor`: first `validateDelegateType`;
then zero return values fail, two return values require the second to
implement `error`, three or more fail; exactly one return value of any
type (including a bare `error`) passes. -/
def validateDelegateTypeIsConstructor (t : GoType) : ValidateResult :=
  match validateDelegateType t with
  | ValidateResult.failed e => ValidateResult.failed e
  | ValidateResult.panicked m => ValidateResult.panicked m
  | ValidateResult.ok =>
    match t.outs with
    | [] =>
      ValidateResult.failed
        (GoErr.validation "function must have a return value and optional error")
    | [_] => ValidateResult.ok
    | [_, second] =>
      if ¬ second.implementsError then
        ValidateResult.failed
          (GoErr.validation
            "if a function has two return parameters, the second must implement error")
      else ValidateResult.ok
    | _ =>
      ValidateResult.failed
        (GoErr.validation "function must have a return value and optional error")

/-- Result of `container.RegisterConstructor`: a modelled panic, or the
returned error together with the container state after the call. -/
inductive RegisterResult (R V : Type) where
  | panicked (msg : String)
  | ret (e : Option GoErr) (c : ContainerModel R V)

/-- Model of `container.RegisterConstructor`: validate the constructor's reflected
type; on failure return the error with the container untouched; on
success register the wrapped delegate (`func(r) { return Invoke(r, constructor) }`,
supplied here as `delegate` — the claims about this function concern
validation and registration, not the delegate's body) under the key of
the first declared return type. -/
def ContainerModel.registerConstructor {R V : Type} (c : ContainerModel R V)
    (t : GoType) (delegate : R → Option V × Option GoErr)
    (options : List (RegistrationOption R V → RegistrationOption R V)) :
    RegisterResult R V :=
  match validateDelegateTypeIsConstructor t with
  | ValidateResult.failed e => RegisterResult.ret (some e) c
  | ValidateResult.panicked m => RegisterResult.panicked m
  | ValidateResult.ok =>
    match t.outs with
    | [] => RegisterResult.panicked "reflect: Out index out of range"
    | rt :: _ =>
      RegisterResult.ret none (c.registerDynamic rt.typeString delegate options)

/-!
## The invocation engine (`invoke.go`)
-/

/-- A Go runtime value as the invocation engine sees it: a `prim` carries
its declared type, its `reflect.Value.IsZero` flag, whether its dynamic
value satisfies the `error` interface (and as which error), and an
abstract payload distinguishing values; `sliceVal` and `mapVal` are the
composite values the engine itself builds. -/
inductive GoVal where
  | prim (typ : GoType) (isZeroVal : Bool) (asError : Option GoErr) (payload : Nat)
  | sliceVal (typ : GoType) (elems : List GoVal)
  | mapVal (typ : GoType) (entries : List (String × GoVal))

/-- Model of `reflect.Value.Type`. -/
def GoVal.typ : GoVal → GoType
  | .prim t _ _ _ => t
  | .sliceVal t _ => t
  | .mapVal t _ => t

/-- Model of `reflect.Value.IsZero`; the slices and maps built by the engine are
freshly made and non-nil, hence never zero. -/
def GoVal.isZero : GoVal → Bool
  | .prim _ z _ _ => z
  | .sliceVal _ _ => false
  | .mapVal _ _ => false

/-- The result of `v.Interface().(error)` on a non-zero value: `some e`
when the dynamic value implements `error`, `none` when the type
assertion would panic. -/
def GoVal.asError : GoVal → Option GoErr
  | .prim _ _ e _ => e
  | .sliceVal _ _ => none
  | .mapVal _ _ => none

/-- Model of `reflect.Zero(t).Interface()`: the canonical zero value of a type. -/
def zeroValue (t : GoType) : GoVal := GoVal.prim t true none 0

/-- An abstract `Resolver` as consumed by the invocation engine.  Result
values are `GoVal`s (the engine wraps them with `reflect.ValueOf`); the
verified claims do not exercise `nil` results in argument positions, so
the oracle hands values back directly. -/
structure ResolverModel where
  resolveOne : GoType → GoVal × Option GoErr
  resolveAllOf : GoType → List GoVal × Option GoErr
  resolveMapOf : GoType → List (String × GoVal) × Option GoErr

/-- Outcome of parameter binding: an error returned to the caller, a
modelled Go panic, or the list of bound argument values. -/
inductive BindOutcome where
  | failed (e : GoErr)
  | panicked (msg : String)
  | bound (args : List GoVal)

/-- Model of `resolveSlice`: call `ResolveAll` on the element type, then build a
value of the parameter type via `reflect.MakeSlice` and set each index in
`ResolveAll` order.  `MakeSlice` panics when the type is not of slice
kind — in particular for a fixed-size array parameter.  The single built
value is returned as a one-element argument list. -/
def resolveSliceModel (r : ResolverModel) (t : GoType) : BindOutcome :=
  match t.elem with
  | none => BindOutcome.panicked "reflect: Elem of invalid type"
  | some elemType =>
    match r.resolveAllOf elemType with
    | (_, some e) => BindOutcome.failed e
    | (vals, none) =>
      if t.kind = GoKind.kslice then
        BindOutcome.bound [GoVal.sliceVal t vals]
      else BindOutcome.panicked "reflect.MakeSlice of non-slice type"

/-- Model of `resolveMap`: call `ResolveMap` on the element type and build a
`map[string]elemType` value from the returned pairs. -/
def resolveMapModel (r : ResolverModel) (elemType : GoType) : BindOutcome :=
  match r.resolveMapOf elemType with
  | (_, some e) => BindOutcome.failed e
  | (m, none) =>
    BindOutcome.bound
      [GoVal.mapVal (GoType.mp (GoType.prim "string" GoKind.kstring false) elemType) m]

/-- The default parameter branch: `resolver.Resolve(parameterType)` and
use the single value as the argument. -/
def bindScalar (r : ResolverModel) (pt : GoType) : BindOutcome :=
  match r.resolveOne pt with
  | (_, some e) => BindOutcome.failed e
  | (v, none) => BindOutcome.bound [v]

/-- The body of the `resolveParameters` loop for one parameter: array or
slice kinds either splat the `ResolveAll` results (when the callable is
variadic and this is its last parameter) or build a single slice value;
string-keyed map types build a map value; every other type resolves one
value. -/
def bindParam (r : ResolverModel) (variadic isLast : Bool) (pt : GoType) :
    BindOutcome :=
  if pt.kind = GoKind.karray ∨ pt.kind = GoKind.kslice then
    if variadic ∧ isLast then
      match pt.elem with
      | none => BindOutcome.panicked "reflect: Elem of invalid type"
      | some elemType =>
        match r.resolveAllOf elemType with
        | (_, some e) => BindOutcome.failed e
        | (vals, none) => BindOutcome.bound vals
    else resolveSliceModel r pt
  else
    match pt with
    | GoType.mp k v =>
      if k.kind = GoKind.kstring then resolveMapModel r v
      else bindScalar r (GoType.mp k v)
    | _ => bindScalar r pt

/-- Model of `resolveParameters`: bind each parameter in declaration order,
aborting on the first error or panic, concatenating the bound argument
lists in order. -/
def resolveParams (r : ResolverModel) (variadic : Bool) :
    List GoType → BindOutcome
  | [] => BindOutcome.bound []
  | pt :: rest =>
    match bindParam r variadic rest.isEmpty pt with
    | BindOutcome.failed e => BindOutcome.failed e
    | BindOutcome.panicked m => BindOutcome.panicked m
    | BindOutcome.bound args =>
      match resolveParams r variadic rest with
      | BindOutcome.failed e => BindOutcome.failed e
      | BindOutcome.panicked m => BindOutcome.panicked m
      | BindOutcome.bound rest' => BindOutcome.bound (args ++ rest')

/-- The `delegate any` argument of `Invoke`: its reflected type and its
call behavior — the results `reflect.Value.Call` produces for given
arguments; consulted only when the type is a func. -/
structure Delegate where
  typ : GoType
  call : List GoVal → List GoVal

/-- Outcome of `Invoke`: a modelled Go panic, or the returned
`(value, error)` pair together with a flag recording whether the
callable was executed (instrumentation of the control flow only). -/
inductive InvokeOutcome where
  | panicked (msg : String)
  | ret (value : Option GoVal) (error : Option GoErr) (called : Bool)

/-- Model of `Invoke`: validate the delegate's type is a func, bind the
parameters, call the delegate, then normalize the results: zero results
return `(nil, nil)`; the first result is the value (re-created as the
zero of its type when `IsZero`); when there are exactly two results, a
non-zero second result is type-asserted to `error` — an assertion that
panics when the dynamic value does not implement `error`. -/
def invokeModel (r : ResolverModel) (d : Delegate) : InvokeOutcome :=
  match validateDelegateType d.typ with
  | ValidateResult.panicked m => InvokeOutcome.panicked m
  | ValidateResult.failed e => InvokeOutcome.ret none (some e) false
  | ValidateResult.ok =>
    match resolveParams r d.typ.isVariadic d.typ.ins with
    | BindOutcome.failed e => InvokeOutcome.ret none (some e) false
    | BindOutcome.panicked m => InvokeOutcome.panicked m
    | BindOutcome.bound args =>
      match d.call args with
      | [] => InvokeOutcome.ret none none true
      | r0 :: rest =>
        let inst : GoVal := if ¬ r0.isZero then r0 else zeroValue r0.typ
        match rest with
        | [r1] =>
          if ¬ r1.isZero then
            match r1.asError with
            | some e => InvokeOutcome.ret (some inst) (some e) true
            | none =>
              InvokeOutcome.panicked
                "interface conversion: second result does not implement error"
          else InvokeOutcome.ret (some inst) none true
        | _ => InvokeOutcome.ret (some inst) none true

/-!
## The field injector (`inject.go`)
-/

/-- One field of the target record: presence of the `inject` tag, whether
the reflected field value is valid, addressable and settable (one
collapsed flag), the field's declared type as a resolution key, and the
value currently stored in the field. -/
structure FieldModel (V : Type) where
  hasInjectTag : Bool
  settable : Bool
  fieldType : String
  value : Option V
deriving DecidableEq, Repr

/-- Outcome of `Inject`: a modelled Go panic, or the returned error
together with the record's fields after the call. -/
inductive InjectOutcome (V : Type) where
  | panicked (msg : String)
  | ret (fields : List (FieldModel V)) (error : Option GoErr)
deriving DecidableEq, Repr

/-- Prepend an untouched or just-assigned field to the state produced by
the remainder of the field walk. -/
def consField {V : Type} (f : FieldModel V) : InjectOutcome V → InjectOutcome V
  | InjectOutcome.panicked m => InjectOutcome.panicked m
  | InjectOutcome.ret rest e => InjectOutcome.ret (f :: rest) e

/-- Model of `Inject`: walk the fields in declaration order; a field without the
`inject` tag is skipped, as is a tagged field that is not settable; every
other field is resolved by its declared type — a resolution error aborts
the walk immediately and is returned, leaving this field and all later
fields untouched, while earlier assignments stand; a successful
resolution assigns the value (`reflect.ValueOf` of a `nil` resolution is
the zero `Value`, on which `Set` panics). -/
def injectFields {V : Type} (resolve : String → Option V × Option GoErr) :
    List (FieldModel V) → InjectOutcome V
  | [] => InjectOutcome.ret [] none
  | f :: rest =>
    if ¬ f.hasInjectTag then
      consField f (injectFields resolve rest)
    else if ¬ f.settable then
      consField f (injectFields resolve rest)
    else
      match resolve f.fieldType with
      | (_, some e) => InjectOutcome.ret (f :: rest) (some e)
      | (some v, none) =>
        consField { f with value := some v } (injectFields resolve rest)
      | (none, none) => InjectOutcome.panicked "reflect: Set using zero Value argument"

/-!
## Theorems about the registration store and resolution engine
-/

/-- C1: for every container and type key whose registration group contains
at least one anonymous (unnamed) registration, `Resolve` returns the
result of resolving the last anonymous item — since `registerDynamic`
appends anonymous items, the last item of the group's `items` list is the
last-registered one — regardless of how many named registrations the
group also contains. -/
theorem C1_resolve_last_anonymous {R V : Type} (c : ContainerModel R V)
    (key : String) (r : R) (g : ContainerItemGroup R V)
    (item : ContainerItem R V)
    (hg : c.group key = some g)
    (hlast : g.items.getLast? = some item) :
    c.resolveType key r = (item.resolve r).1 := by
  simp only [ContainerModel.resolveType, hg, hlast]

def c1Delegate1 : Unit → Option Nat × Option GoErr := fun _ => (some 1, none)

def c1Delegate2 : Unit → Option Nat × Option GoErr := fun _ => (some 2, none)

def c1Delegate3 : Unit → Option Nat × Option GoErr := fun _ => (some 3, none)

/-- A container with two anonymous registrations and one named
registration under the key `"T"`. -/
def c1Container : ContainerModel Unit Nat :=
  (((newContainer []).registerDynamic "T" c1Delegate1 []).registerDynamic "T"
      c1Delegate2 []).registerDynamic "T" c1Delegate3 [withNameOpt "n"]

def c1Item1 : ContainerItem Unit Nat :=
  { data := none, err := none,
    option := { name := "", key := "T", resolver := c1Delegate1,
                lifetime := Lifetime.static } }

def c1Item2 : ContainerItem Unit Nat :=
  { data := none, err := none,
    option := { name := "", key := "T", resolver := c1Delegate2,
                lifetime := Lifetime.static } }

def c1Item3 : ContainerItem Unit Nat :=
  { data := none, err := none,
    option := { name := "n", key := "T", resolver := c1Delegate3,
                lifetime := Lifetime.static } }

def c1Group : ContainerItemGroup Unit Nat :=
  { items := [c1Item1, c1Item2], namedItems := [("n", c1Item3)] }

/-- Witness for C1: on the concrete container the second (last-registered)
anonymous instance is returned. -/
theorem C1_witness :
    c1Container.resolveType "T" () = (c1Item2.resolve ()).1 ∧
    (c1Item2.resolve ()).1 = (some 2, none) :=
  ⟨C1_resolve_last_anonymous c1Container "T" () c1Group c1Item2 rfl rfl, rfl⟩

/-- C7: `ResolveByName` fails with the `ErrNotExist` error when no
registration group exists for the type, and with the distinct
`ErrNameNotExist` error when the group exists but has no entry for the
name. -/
theorem C7_resolve_by_name_errors {R V : Type} (c : ContainerModel R V)
    (key name : String) (r : R) :
    (c.group key = none →
      c.resolveByName key name r = (none, some (GoErr.notExist key))) ∧
    (∀ g : ContainerItemGroup R V, c.group key = some g →
      lookupKey g.namedItems name = none →
      c.resolveByName key name r = (none, some (GoErr.nameNotExist name))) := by
  constructor
  · intro h
    simp only [ContainerModel.resolveByName, h]
  · intro g hg hn
    simp only [ContainerModel.resolveByName, hg, hn]

/-- Witness for C7: an empty container yields `ErrNotExist`, and the
populated container yields `ErrNameNotExist` for a missing name. -/
theorem C7_witness :
    (newContainer ([] :
        List (RegistrationOption Unit Nat → RegistrationOption Unit Nat))).resolveByName
      "T" "z" () = (none, some (GoErr.notExist "T")) ∧
    c1Container.resolveByName "T" "z" () = (none, some (GoErr.nameNotExist "z")) :=
  ⟨(C7_resolve_by_name_errors (newContainer []) "T" "z" ()).1 rfl,
   (C7_resolve_by_name_errors c1Container "T" "z" ()).2 c1Group rfl rfl⟩

/-- The collection loop of `ResolveAll` on items that all resolve without
error appends their resolved data in order. -/
theorem resolveItemList_ok {R V : Type} (r : R) (l : List (ContainerItem R V))
    (h : ∀ i ∈ l, ((i.resolve r).1).2 = none) :
    ∀ acc : List (Option V),
      resolveItemList r acc l =
        (acc ++ l.map (fun i => ((i.resolve r).1).1), none) := by
  induction l with
  | nil => intro acc; simp [resolveItemList]
  | cons hd tl ih =>
    intro acc
    have hhd := h hd (List.mem_cons_self hd tl)
    have htl : ∀ i ∈ tl, ((i.resolve r).1).2 = none := fun i hi =>
      h i (List.mem_cons_of_mem hd hi)
    simp only [resolveItemList]
    cases hres : (hd.resolve r).1 with
    | mk d e =>
      rw [hres] at hhd
      simp only at hhd
      subst hhd
      simp only [ih htl (acc ++ [d]), List.map_cons, hres, List.append_assoc,
        List.singleton_append]

/-- C6: for every container and type key with a registration group whose
items all resolve without error, `ResolveAll` returns the resolutions of
all named items (in the map's iteration order, which Go leaves
unspecified) followed by the resolutions of all anonymous items in their
insertion order (`registerDynamic` appends anonymous items, so insertion
order is registration order). -/
theorem C6_resolveAll_named_then_anonymous {R V : Type} (c : ContainerModel R V)
    (key : String) (r : R) (g : ContainerItemGroup R V)
    (hg : c.group key = some g)
    (hnamed : ∀ i ∈ g.namedItems.map Prod.snd, ((i.resolve r).1).2 = none)
    (hitems : ∀ i ∈ g.items, ((i.resolve r).1).2 = none) :
    c.resolveAll key r =
      ((g.namedItems.map Prod.snd).map (fun i => ((i.resolve r).1).1) ++
        g.items.map (fun i => ((i.resolve r).1).1), none) := by
  simp only [ContainerModel.resolveAll, hg]
  rw [resolveItemList_ok r _ hnamed []]
  simp only [List.nil_append]
  rw [resolveItemList_ok r _ hitems]

/-- Witness for C6: the populated container returns the named resolution
followed by both anonymous resolutions in registration order. -/
theorem C6_witness :
    c1Container.resolveAll "T" () = ([some 3, some 1, some 2], none) := by
  rw [C6_resolveAll_named_then_anonymous c1Container "T" () c1Group rfl
    (by intro i hi
        simp only [c1Group, List.map_cons, List.map_nil, List.mem_singleton] at hi
        subst hi
        rfl)
    (by intro i hi
        simp only [c1Group, List.mem_cons, List.not_mem_nil, or_false] at hi
        rcases hi with h | h <;> subst h <;> rfl)]
  rfl

/-- C2 (amended): for an item of Static lifetime, a resolve call that
finds a cached non-nil error returns it without executing the factory; a
call that finds a cached non-nil value returns it without executing the
factory; and a call that finds neither executes the factory and stores
the resulting `(value, error)` pair in the item.  (A pair whose stored
value and error are both nil is indistinguishable from an empty cache, so
such a factory is executed again on the next call — see the
counterexample.) -/
theorem C2_static_memoization {R V : Type} (i : ContainerItem R V) (r : R)
    (hstatic : i.option.lifetime = Lifetime.static) :
    (∀ e, i.err = some e → i.resolve r = ((none, some e), i, false)) ∧
    (∀ d, i.err = none → i.data = some d → i.resolve r = ((some d, none), i, false)) ∧
    (i.err = none → i.data = none →
      i.resolve r =
        (i.option.resolver r,
         { i with data := (i.option.resolver r).1, err := (i.option.resolver r).2 },
         true)) := by
  obtain ⟨data, err, opt⟩ := i
  refine ⟨?_, ?_, ?_⟩
  · intro e he
    simp only at he
    subst he
    rfl
  · intro d he hd
    simp only at he hd
    subst he
    subst hd
    rfl
  · intro he hd
    simp only at he hd
    subst he
    subst hd
    simp only at hstatic
    simp [ContainerItem.resolve, hstatic]

def c2Delegate : Unit → Option Nat × Option GoErr := fun _ => (some 5, none)

def c2Item : ContainerItem Unit Nat :=
  { data := none, err := none,
    option := { name := "", key := "k", resolver := c2Delegate,
                lifetime := Lifetime.static } }

/-- Witness for C2 (amended): a fresh Static item executes its factory
and stores the result; the resulting item state then returns the cached
value without executing the factory again. -/
theorem C2_witness :
    c2Item.resolve () =
      ((some 5, none), { c2Item with data := some 5, err := none }, true) ∧
    ({ c2Item with data := some 5, err := none } : ContainerItem Unit Nat).resolve () =
      ((some 5, none), { c2Item with data := some 5, err := none }, false) :=
  ⟨(C2_static_memoization c2Item () rfl).2.2 rfl rfl,
   (C2_static_memoization ({ c2Item with data := some 5, err := none }) () rfl).2.1
     5 rfl rfl⟩

def c2NilDelegate : Unit → Option Nat × Option GoErr := fun _ => (none, none)

def c2NilItem : ContainerItem Unit Nat :=
  { data := none, err := none,
    option := { name := "", key := "k", resolver := c2NilDelegate,
                lifetime := Lifetime.static } }

/-- Counterexample to C2 as stated: a Static factory returning
`(nil, nil)` is invoked again by every subsequent resolve call — the
instrumentation flag recording factory execution is `true` both on the
first call and on the call made on the item state the first call
produced, so the first call did not invoke the factory "exactly once" for
all time. -/
theorem C2_counterexample :
    (c2NilItem.resolve ()).2.2 = true ∧
    (((c2NilItem.resolve ()).2.1).resolve ()).2.2 = true :=
  ⟨rfl, rfl⟩

/-- The reflected `error` interface type. -/
def errorType : GoType := GoType.prim "error" GoKind.kiface true

/-- The reflected type of `func() error`. -/
def c3ErrCtor : GoType := GoType.fn [] [errorType] false

def c3Delegate : Unit → Option Nat × Option GoErr := fun _ => (none, none)

/-- The container state `RegisterConstructor` produces for `func() error`
on an empty container: one anonymous registration under the key
`"error"`. -/
def c3AfterContainer : ContainerModel Unit Nat :=
  (newContainer []).registerDynamic "error" c3Delegate []

def c3ErrGroup : ContainerItemGroup Unit Nat :=
  { items := [{ data := none, err := none,
                option := { name := "", key := "error", resolver := c3Delegate,
                            lifetime := Lifetime.static } }],
    namedItems := [] }

/-- Counterexample to C3 as stated: a callable returning a single value
that is only an `error` is accepted by `RegisterConstructor` — it returns
a nil error and registers an entry under the key of the `error` type
itself, rather than failing validation and leaving the container
unchanged. -/
theorem C3_counterexample :
    (newContainer ([] :
        List (RegistrationOption Unit Nat → RegistrationOption Unit Nat))).registerConstructor
      c3ErrCtor c3Delegate [] = RegisterResult.ret none c3AfterContainer ∧
    c3AfterContainer.group "error" = some c3ErrGroup ∧
    c3ErrGroup.items.length = 1 :=
  ⟨rfl, rfl, rfl⟩

/-- C3 (amended): for every callable whose return signature is invalid —
zero return values, three or more return values, or two return values
where the second does not satisfy the error capability —
`RegisterConstructor` returns a validation error and leaves the container
unchanged.  (A callable returning exactly one value passes this
validation even when that value is itself an `error` — see the
counterexample.) -/
theorem C3_invalid_signatures_rejected {R V : Type} (c : ContainerModel R V)
    (ins outs : List GoType) (variadic : Bool)
    (delegate : R → Option V × Option GoErr)
    (options : List (RegistrationOption R V → RegistrationOption R V))
    (hbad : outs = [] ∨
      (∃ a b, outs = [a, b] ∧ b.implementsError = false) ∨
      2 < outs.length) :
    ∃ msg, c.registerConstructor (GoType.fn ins outs variadic) delegate options =
      RegisterResult.ret (some (GoErr.validation msg)) c := by
  rcases hbad with h | ⟨a, b, h, hb⟩ | h
  · subst h
    exact ⟨_, rfl⟩
  · subst h
    refine ⟨"if a function has two return parameters, the second must implement error", ?_⟩
    simp only [ContainerModel.registerConstructor, validateDelegateTypeIsConstructor,
      validateDelegateType, GoType.kind, GoType.outs, if_pos rfl, hb]
    rfl
  · match outs, h with
    | o1 :: o2 :: o3 :: rest, _ => exact ⟨_, rfl⟩

/-- Witness for C3 (amended): all three invalid shapes are rejected on a
concrete container, which is left unchanged. -/
theorem C3_witness :
    (∃ msg, c1Container.registerConstructor (GoType.fn [] [] false) c1Delegate1 [] =
      RegisterResult.ret (some (GoErr.validation msg)) c1Container) ∧
    (∃ msg, c1Container.registerConstructor
        (GoType.fn [] [errorType, GoType.prim "int" GoKind.kint false] false)
        c1Delegate1 [] =
      RegisterResult.ret (some (GoErr.validation msg)) c1Container) ∧
    (∃ msg, c1Container.registerConstructor
        (GoType.fn [] [errorType, errorType, errorType] false) c1Delegate1 [] =
      RegisterResult.ret (some (GoErr.validation msg)) c1Container) :=
  ⟨C3_invalid_signatures_rejected c1Container [] [] false c1Delegate1 [] (Or.inl rfl),
   C3_invalid_signatures_rejected c1Container []
     [errorType, GoType.prim "int" GoKind.kint false] false c1Delegate1 []
     (Or.inr (Or.inl ⟨errorType, GoType.prim "int" GoKind.kint false, rfl, rfl⟩)),
   C3_invalid_signatures_rejected c1Container [] [errorType, errorType, errorType]
     false c1Delegate1 [] (Or.inr (Or.inr (by simp)))⟩

/-!
## Theorems about the invocation engine
-/

/-- A sample dependency interface type. -/
def depType : GoType := GoType.prim "Dep" GoKind.kiface false

/-- A resolver oracle that always succeeds: `Resolve` yields one value,
`ResolveAll` yields two values in order, `ResolveMap` yields nothing. -/
def c4Resolver : ResolverModel :=
  { resolveOne := fun t => (GoVal.prim t false none 7, none)
    resolveAllOf := fun t =>
      ([GoVal.prim t false none 1, GoVal.prim t false none 2], none)
    resolveMapOf := fun _ => ([], none) }

/-- The delegate `func(a [2]Dep)` (a fixed-size array parameter, not a
variadic tail). -/
def c4ArrayDelegate : Delegate :=
  { typ := GoType.fn [GoType.array 2 depType] [] false
    call := fun _ => [] }

/-- Counterexample to C4 as stated: for a fixed-size array parameter that
is not a variadic tail, no sequence value of the parameter type is built
and passed — `resolveSlice` reaches `reflect.MakeSlice` with the array
type and panics, even though `ResolveAll` succeeded. -/
theorem C4_counterexample :
    invokeModel c4Resolver c4ArrayDelegate =
      InvokeOutcome.panicked "reflect.MakeSlice of non-slice type" := rfl

/-- C4 (amended): when the invocation engine binds a sequence-typed
(array or slice kind) parameter — `bindParam` is the body of the
`resolveParameters` loop, applied to each parameter in declaration order
with `isLast` true exactly for the final parameter — then: if the
callable is variadic and this is its last parameter, each element
returned by `ResolveAll` on the element type becomes one separate
trailing argument; otherwise, for a slice-typed parameter a single slice
value of the exact parameter type is built containing `ResolveAll`'s
results in the order returned; and for an array-typed parameter the
engine panics in `reflect.MakeSlice` instead of building a value. -/
theorem C4_sequence_binding (r : ResolverModel) (variadic isLast : Bool)
    (pt elemType : GoType) (vals : List GoVal)
    (hseq : pt.kind = GoKind.karray ∨ pt.kind = GoKind.kslice)
    (helem : pt.elem = some elemType)
    (hall : r.resolveAllOf elemType = (vals, none)) :
    bindParam r variadic isLast pt =
      (if variadic ∧ isLast then BindOutcome.bound vals
       else if pt.kind = GoKind.kslice then
         BindOutcome.bound [GoVal.sliceVal pt vals]
       else BindOutcome.panicked "reflect.MakeSlice of non-slice type") := by
  cases pt with
  | prim n k b => simp [GoType.elem] at helem
  | fn i o v => simp [GoType.elem] at helem
  | mp k v => rcases hseq with h | h <;> simp [GoType.kind] at h
  | ptr e => rcases hseq with h | h <;> simp [GoType.kind] at h
  | slice e =>
    have he : e = elemType := by simpa [GoType.elem] using helem
    subst he
    by_cases hv : variadic = true ∧ isLast = true
    · simp [bindParam, GoType.kind, hv, GoType.elem, hall]
    · simp [bindParam, resolveSliceModel, GoType.kind, hv, GoType.elem, hall]
  | array n e =>
    have he : e = elemType := by simpa [GoType.elem] using helem
    subst he
    by_cases hv : variadic = true ∧ isLast = true
    · simp [bindParam, GoType.kind, hv, GoType.elem, hall]
    · simp [bindParam, resolveSliceModel, GoType.kind, hv, GoType.elem, hall]

/-- The slice type `[]Dep`. -/
def sliceParamType : GoType := GoType.slice depType

/-- Witness for C4 (amended): with the always-succeeding resolver, a
non-variadic slice parameter is bound to one slice value of the parameter
type holding both resolved elements in order, and a variadic tail slice
parameter is bound to the two elements as separate arguments. -/
theorem C4_witness :
    bindParam c4Resolver false false sliceParamType =
      BindOutcome.bound [GoVal.sliceVal sliceParamType
        [GoVal.prim depType false none 1, GoVal.prim depType false none 2]] ∧
    bindParam c4Resolver true true sliceParamType =
      BindOutcome.bound
        [GoVal.prim depType false none 1, GoVal.prim depType false none 2] := by
  constructor
  · rw [C4_sequence_binding c4Resolver false false sliceParamType depType _
      (Or.inr rfl) rfl rfl]
    rfl
  · rw [C4_sequence_binding c4Resolver true true sliceParamType depType _
      (Or.inr rfl) rfl rfl]
    rfl

/-- The reflected `int` type. -/
def intType : GoType := GoType.prim "int" GoKind.kint false

/-- C5 (amended): for an invoked callable (validation passed, parameters
bound), the normalization of the call results is: one result — that
result is the value (re-created as the zero value of its type when it is
zero, which is the same Go value) and the error is nil; two results —
the value is the first result in the same sense in all cases, and when
the second result is zero the error is nil, when it is non-zero and its
dynamic value satisfies `error` that error is returned, and when it is
non-zero but not error-capable the type assertion
`results[1].Interface().(error)` panics instead of returning. -/
theorem C5_result_normalization (r : ResolverModel) (d : Delegate)
    (args : List GoVal)
    (hv : validateDelegateType d.typ = ValidateResult.ok)
    (hp : resolveParams r d.typ.isVariadic d.typ.ins = BindOutcome.bound args) :
    (∀ r0, d.call args = [r0] →
      invokeModel r d = InvokeOutcome.ret
        (some (if ¬ r0.isZero then r0 else zeroValue r0.typ)) none true) ∧
    (∀ r0 r1, d.call args = [r0, r1] →
      (r1.isZero = true →
        invokeModel r d = InvokeOutcome.ret
          (some (if ¬ r0.isZero then r0 else zeroValue r0.typ)) none true) ∧
      (∀ e, r1.isZero = false → r1.asError = some e →
        invokeModel r d = InvokeOutcome.ret
          (some (if ¬ r0.isZero then r0 else zeroValue r0.typ)) (some e) true) ∧
      (r1.isZero = false → r1.asError = none →
        invokeModel r d = InvokeOutcome.panicked
          "interface conversion: second result does not implement error")) := by
  constructor
  · intro r0 hc
    simp only [invokeModel, hv, hp, hc]
  · intro r0 r1 hc
    refine ⟨?_, ?_, ?_⟩
    · intro hz
      simp only [invokeModel, hv, hp, hc, hz]
      simp
    · intro e hz he
      simp only [invokeModel, hv, hp, hc, hz, he]
      simp
    · intro hz he
      simp only [invokeModel, hv, hp, hc, hz, he]
      simp

/-- An `int` result value 9 and a non-nil `error` result value. -/
def c5Val : GoVal := GoVal.prim intType false none 9

def c5ErrVal : GoVal := GoVal.prim errorType false (some (GoErr.runtime "boom")) 0

/-- The delegate `func() (int, error)` returning `(9, boom)`. -/
def c5TwoDelegate : Delegate :=
  { typ := GoType.fn [] [intType, errorType] false
    call := fun _ => [c5Val, c5ErrVal] }

/-- Witness for C5 (amended): the two-result callable whose second result
is a non-nil error returns its first result as the value together with
that error. -/
theorem C5_witness :
    invokeModel c4Resolver c5TwoDelegate =
      InvokeOutcome.ret (some c5Val) (some (GoErr.runtime "boom")) true :=
  ((C5_result_normalization c4Resolver c5TwoDelegate [] rfl rfl).2 c5Val c5ErrVal
    rfl).2.1 (GoErr.runtime "boom") rfl rfl

/-- The delegate `func() (int, int)` returning `(1, 5)` — the second
result is non-zero but does not implement `error`. -/
def c5BadDelegate : Delegate :=
  { typ := GoType.fn [] [intType, intType] false
    call := fun _ => [GoVal.prim intType false none 1, GoVal.prim intType false none 5] }

/-- Counterexample to C5 as stated: a callable declaring two return
values whose non-zero second result does not satisfy `error` makes
`Invoke` panic in the type assertion instead of returning a non-nil
error. -/
theorem C5_counterexample :
    invokeModel c4Resolver c5BadDelegate =
      InvokeOutcome.panicked "interface conversion: second result does not implement error" :=
  rfl

/-- C10: a function declaring zero return values is accepted by `Invoke`
(whose validation only requires a func kind, unlike constructor
registration): the parameters are bound, the function is called, and the
result is a nil value and a nil error. -/
theorem C10_zero_return_accepted (r : ResolverModel) (d : Delegate)
    (ins : List GoType) (variadic : Bool) (args : List GoVal)
    (ht : d.typ = GoType.fn ins [] variadic)
    (hp : resolveParams r d.typ.isVariadic d.typ.ins = BindOutcome.bound args)
    (hcall : d.call args = []) :
    invokeModel r d = InvokeOutcome.ret none none true := by
  have hv : validateDelegateType d.typ = ValidateResult.ok := by
    rw [ht]
    rfl
  simp only [invokeModel, hv, hp, hcall]

/-- The delegate `func(d Dep)` with no return values. -/
def c10Delegate : Delegate :=
  { typ := GoType.fn [depType] [] false
    call := fun _ => [] }

/-- Witness for C10: the zero-return callable with one injectable
parameter succeeds with a nil value and nil error. -/
theorem C10_witness :
    invokeModel c4Resolver c10Delegate = InvokeOutcome.ret none none true :=
  C10_zero_return_accepted c4Resolver c10Delegate [depType] false
    [GoVal.prim depType false none 7] rfl rfl rfl

/-- The non-func delegate `0` (an `int`, whose reflect kind has no
element type). -/
def c9IntDelegate : Delegate :=
  { typ := intType
    call := fun _ => [] }

/-- The non-func delegate `&x` (a pointer, whose reflect kind does have
an element type). -/
def c9PtrDelegate : Delegate :=
  { typ := GoType.ptr intType
    call := fun _ => [] }

/-- C9 (code bug): for a non-func argument whose reflect kind has no
element type (such as an `int`), `Invoke` panics inside
`validateDelegateType` — the error message is built with `t.Elem()`,
and `reflect.Type.Elem` panics for such kinds — instead of returning the
validation error.  For a pointer argument the intended error path is
taken: a non-nil validation error is returned without resolving any
parameter and without calling anything. -/
theorem C9_nonfunc_panics :
    invokeModel c4Resolver c9IntDelegate =
      InvokeOutcome.panicked "reflect: Elem of invalid type" ∧
    invokeModel c4Resolver c9PtrDelegate =
      InvokeOutcome.ret none
        (some (GoErr.validation "function 'int' must be a method")) false :=
  ⟨rfl, rfl⟩

/-!
## Theorems about the field injector
-/

/-- The effect of a successful injection pass on one field: a tagged,
settable field receives the resolved value for its declared type; every
other field is untouched. -/
def assignField {V : Type} (resolve : String → Option V × Option GoErr)
    (f : FieldModel V) : FieldModel V :=
  if f.hasInjectTag ∧ f.settable then { f with value := (resolve f.fieldType).1 }
  else f

/-- C8: `Inject` processes the record's fields in declaration order; if
`f` is the first tagged, settable field whose declared type fails to
resolve (each earlier tagged, settable field resolving to a value
without error), injection aborts at `f` with that error returned, every
earlier field keeps the state the walk gave it — tagged settable fields
hold their injected values, and untagged or non-settable fields are
skipped untouched — and `f` and all later fields are untouched. -/
theorem C8_inject_first_failure_aborts {V : Type}
    (resolve : String → Option V × Option GoErr)
    (pre : List (FieldModel V)) (f : FieldModel V) (post : List (FieldModel V))
    (e : GoErr)
    (hpre : ∀ g ∈ pre, g.hasInjectTag = true → g.settable = true →
      (resolve g.fieldType).2 = none ∧ ((resolve g.fieldType).1).isSome = true)
    (hf : f.hasInjectTag = true) (hs : f.settable = true)
    (he : (resolve f.fieldType).2 = some e) :
    injectFields resolve (pre ++ f :: post) =
      InjectOutcome.ret (pre.map (assignField resolve) ++ f :: post) (some e) := by
  induction pre with
  | nil =>
    simp only [List.nil_append, List.map_nil, injectFields, hf, hs]
    cases hres : resolve f.fieldType with
    | mk a b =>
      rw [hres] at he
      simp only at he
      subst he
      simp
  | cons hd tl ih =>
    have htl : ∀ g ∈ tl, g.hasInjectTag = true → g.settable = true →
        (resolve g.fieldType).2 = none ∧ ((resolve g.fieldType).1).isSome = true :=
      fun g hg => hpre g (List.mem_cons_of_mem hd hg)
    by_cases htag : hd.hasInjectTag = true
    · by_cases hset : hd.settable = true
      · obtain ⟨hnoerr, hsome⟩ := hpre hd (List.mem_cons_self hd tl) htag hset
        cases hres : resolve hd.fieldType with
        | mk a b =>
          rw [hres] at hnoerr hsome
          simp only at hnoerr hsome
          subst hnoerr
          cases a with
          | none => simp at hsome
          | some v =>
            simp only [List.cons_append, injectFields, htag, hset, hres,
              List.map_cons, List.append_eq, Bool.not_true, if_false,
              Bool.false_eq_true, not_false_eq_true, ite_true, ite_false]
            rw [ih htl]
            simp [assignField, htag, hset, hres, consField]
      · simp only [List.cons_append, injectFields, htag, hset, List.map_cons,
          List.append_eq]
        rw [if_neg (by simp [htag]), if_pos (by simp [hset]), ih htl]
        simp [assignField, hset, consField]
    · simp only [List.cons_append, injectFields, htag, List.map_cons,
        List.append_eq]
      rw [if_pos (by simp [htag]), ih htl]
      simp [assignField, htag, consField]

/-- A concrete resolver for the injection witness: type `"A"` resolves to
`1`, type `"B"` fails, everything else resolves to `0`. -/
def c8Resolve : String → Option Nat × Option GoErr :=
  fun s =>
    if s = "A" then (some 1, none)
    else if s = "B" then (none, some (GoErr.notExist "B")) else (some 0, none)

def c8FieldA : FieldModel Nat :=
  { hasInjectTag := true, settable := true, fieldType := "A", value := none }

def c8FieldUntagged : FieldModel Nat :=
  { hasInjectTag := false, settable := true, fieldType := "B", value := none }

def c8FieldUnsettable : FieldModel Nat :=
  { hasInjectTag := true, settable := false, fieldType := "B", value := none }

def c8FieldB : FieldModel Nat :=
  { hasInjectTag := true, settable := true, fieldType := "B", value := none }

def c8FieldC : FieldModel Nat :=
  { hasInjectTag := true, settable := true, fieldType := "C", value := none }

/-- Witness for C8: on a record with an injectable field, an untagged
field, an unsettable tagged field, a failing field and a later field,
injection stops at the failing field with its error; the first field
keeps its injected value, the skipped fields and all fields from the
failure on are untouched. -/
theorem C8_witness :
    injectFields c8Resolve
      [c8FieldA, c8FieldUntagged, c8FieldUnsettable, c8FieldB, c8FieldC] =
      InjectOutcome.ret
        [{ c8FieldA with value := some 1 }, c8FieldUntagged, c8FieldUnsettable,
          c8FieldB, c8FieldC]
        (some (GoErr.notExist "B")) := by
  have h := C8_inject_first_failure_aborts c8Resolve
    [c8FieldA, c8FieldUntagged, c8FieldUnsettable] c8FieldB [c8FieldC]
    (GoErr.notExist "B") (by decide) rfl rfl rfl
  exact h.trans (by decide)

end GoDI
